import Mathlib

/-!
Shallow embedding of the Flappy-Bird simulation core of `rshtirmer/flappy-test`.

The repository holds two near-duplicate variants of the game logic:
* `src/unnamed/part_001` — the richer, rotation-enabled variant
  (class `FlappyBirdGame` with `flap`, `updateBirdPosition`,
  `updateBirdRotation`, `updateObstaclePosition`, `updateObstaclePassed`,
  `updateAnimation`, `checkCollisions`, `resetObstacle`, `endGame`); it is
  embedded below in namespace `Rich`.
* `src/game.js` — the simpler variant (class `FlappyBirdGame` with `jump`
  and an inline `update`); it is embedded in namespace `Simple`.

JavaScript numbers are embedded as exact rationals (`ℚ`); the numeric
literals of the source (`0.05`, `3`, `5`, …) denote the same values in `ℚ`.
The one literal that is not exactly a decimal, `Math.PI / 4`, is embedded as
the exact rational value of the IEEE-754 double it evaluates to.
`Math.random()` results are passed in as an explicit parameter `r` with
`0 ≤ r < 1`.  Calls into the external rewards collaborator
(`ogpManager.addPoints`, `ogpManager.saveScore`) are recorded as an explicit
list of `Effect`s returned next to the state; DOM and canvas writes carry no
simulation state and are dropped.
-/

namespace FlappyTest

/-- Calls the simulation makes into the external rewards collaborator
(`OGPManager`): `addPoints` from the pass-through handler of the rich
variant, `saveScore` from `endGame` of both variants. -/
inductive Effect where
  | addPoints (delta : ℕ)
  | saveScore (total : ℕ)
deriving DecidableEq, Repr

namespace Rich

/-! Constants of `CONFIG` in `src/unnamed/part_001` (the fields the
simulation core reads). -/

/-- CONFIG.gravity = 0.05 -/
def gravity : ℚ := 0.05

/-- CONFIG.flapStrength = 3 -/
def flapStrength : ℚ := 3

/-- CONFIG.maxVelocity = 5 -/
def maxVelocity : ℚ := 5

/-- CONFIG.birdInitialY = 300 -/
def birdInitialY : ℚ := 300

/-- CONFIG.birdWidth = 30 -/
def birdWidth : ℚ := 30

/-- CONFIG.birdHeight = 30 -/
def birdHeight : ℚ := 30

/-- CONFIG.birdX = 50 -/
def birdX : ℚ := 50

/-- CONFIG.obstacleWidth = 50 -/
def obstacleWidth : ℚ := 50

/-- CONFIG.obstacleSpeed = 2 -/
def obstacleSpeed : ℚ := 2

/-- CONFIG.gapSize = 150 -/
def gapSize : ℚ := 150

/-- CONFIG.canvasWidth = 400 -/
def canvasWidth : ℚ := 400

/-- CONFIG.canvasHeight = 600 -/
def canvasHeight : ℚ := 600

/-- CONFIG.animationFrameInterval = 10 -/
def animationFrameInterval : ℕ := 10

/-- CONFIG.rotationFriction = 0.4 -/
def rotationFriction : ℚ := 0.4

/-- CONFIG.rotationSensitivity = 0.3 -/
def rotationSensitivity : ℚ := 0.3

/-- CONFIG.maxRotation = Math.PI / 4: the exact value of the IEEE-754 double
`Math.PI / 4` is `884279719003555 / 2 ^ 50`. -/
def maxRotation : ℚ := 884279719003555 / 1125899906842624

/-- The spring factor `0.1` hard-coded in `updateBirdRotation`
("Spring force towards target"). -/
def springConstant : ℚ := 0.1

/-- The mutable `gameState` object of `src/unnamed/part_001`, minus the
canvas context `ctx` (a pure rendering handle).  `animationFrameId` is the
pending `requestAnimationFrame` registration (`null` ↦ `none`). -/
structure GameState where
  birdY : ℚ
  birdVelocity : ℚ
  birdRotation : ℚ
  birdRotationVelocity : ℚ
  obstacleX : ℚ
  gap : ℚ
  obstacleHeight : ℚ
  score : ℕ
  ogpPoints : ℚ
  gameRunning : Bool
  animationFrameId : Option ℕ
  animationFrame : ℕ
  animationCounter : ℕ
deriving DecidableEq, Repr

/-- The initial `gameState` literal (lines 42-57 of `src/unnamed/part_001`). -/
def initState : GameState :=
  { birdY := birdInitialY
    birdVelocity := 0
    birdRotation := 0
    birdRotationVelocity := 0
    obstacleX := canvasWidth
    gap := gapSize
    obstacleHeight := 0
    score := 0
    ogpPoints := 0
    gameRunning := false
    animationFrameId := none
    animationFrame := 0
    animationCounter := 0 }

/-- `FlappyBirdGame.updateBirdPosition`: clamp-add gravity to the velocity,
then move the bird by the new velocity. -/
def updateBirdPosition (s : GameState) : GameState :=
  let v := min (s.birdVelocity + gravity) maxVelocity
  { s with birdVelocity := v, birdY := s.birdY + v }

/-- `FlappyBirdGame.updateBirdRotation`: clamp the target tilt, add the
spring force to the rotation velocity, scale by friction, integrate. -/
def updateBirdRotation (s : GameState) : GameState :=
  let targetRotation :=
    max (-maxRotation) (min maxRotation (s.birdVelocity * rotationSensitivity))
  let rotationDifference := targetRotation - s.birdRotation
  let rv := (s.birdRotationVelocity + rotationDifference * springConstant)
              * rotationFriction
  { s with birdRotationVelocity := rv, birdRotation := s.birdRotation + rv }

/-- `FlappyBirdGame.updateObstaclePosition`. -/
def updateObstaclePosition (s : GameState) : GameState :=
  { s with obstacleX := s.obstacleX - obstacleSpeed }

/-- `FlappyBirdGame.resetObstacle`: `r` is the `Math.random()` draw. -/
def resetObstacle (r : ℚ) (s : GameState) : GameState :=
  { s with
    obstacleX := canvasWidth
    obstacleHeight := r * (canvasHeight - s.gap - 100) + 50 }

/-- `FlappyBirdGame.updateObstaclePassed`: when the obstacle is fully
off-screen, regenerate it, bump the score and push one point to the
rewards collaborator. -/
def updateObstaclePassed (r : ℚ) (s : GameState) : GameState × List Effect :=
  if s.obstacleX < -obstacleWidth then
    let s1 := resetObstacle r s
    ({ s1 with score := s1.score + 1 }, [Effect.addPoints 1])
  else (s, [])

/-- `FlappyBirdGame.updateAnimationFrame`: wing frame selection (glide when
tilted downward, otherwise toggle), and counter reset. -/
def updateAnimationFrame (s : GameState) : GameState :=
  let frame := if s.birdRotation > 0 then 0
               else if s.animationFrame = 0 then 1 else 0
  { s with animationFrame := frame, animationCounter := 0 }

/-- `FlappyBirdGame.updateAnimation`: bump the counter, change the wing
frame every `animationFrameInterval` updates. -/
def updateAnimation (s : GameState) : GameState :=
  let s1 := { s with animationCounter := s.animationCounter + 1 }
  if s1.animationCounter ≥ animationFrameInterval then updateAnimationFrame s1
  else s1

/-- `FlappyBirdGame.endGame`: stop the game, cancel the pending frame
registration, and (after the DOM writes) save the score to the rewards
collaborator when it is positive.  The save is fire-and-forget: its
outcome is not an input of the resulting state. -/
def endGame (s : GameState) : GameState × List Effect :=
  let s1 := { s with gameRunning := false }
  let s2 := if s1.animationFrameId.isSome
            then { s1 with animationFrameId := none } else s1
  (s2, if s.score > 0 then [Effect.saveScore s.score] else [])

/-- `FlappyBirdGame.checkCollisions`: ground/ceiling test first, then the
AABB obstacle test. -/
def checkCollisions (s : GameState) : GameState × List Effect :=
  if s.birdY < 0 ∨ s.birdY + birdHeight > canvasHeight then
    endGame s
  else
    let birdRight := birdX + birdWidth
    let birdBottom := s.birdY + birdHeight
    let obstacleRight := s.obstacleX + obstacleWidth
    if birdRight > s.obstacleX ∧ birdX < obstacleRight ∧
        (s.birdY < s.obstacleHeight ∨ birdBottom > s.obstacleHeight + s.gap)
    then endGame s
    else (s, [])

/-- `FlappyBirdGame.flap`: only while running, set the velocity to
`-flapStrength` and refresh the wing frame. -/
def flap (s : GameState) : GameState :=
  if s.gameRunning then
    updateAnimationFrame { s with birdVelocity := -flapStrength }
  else s

/-- `FlappyBirdGame.update`: the per-tick simulation step body, in source
order.  Effects from the pass-through handler come before those of a
possible game end. -/
def update (r : ℚ) (s : GameState) : GameState × List Effect :=
  let s1 := updateBirdPosition s
  let s2 := updateBirdRotation s1
  let s3 := updateObstaclePosition s2
  let p := updateObstaclePassed r s3
  let s5 := updateAnimation p.1
  let c := checkCollisions s5
  (c.1, p.2 ++ c.2)

/-- One iteration of `FlappyBirdGame.gameLoop` restricted to simulation
state: the loop returns at once when the game is not running, otherwise it
runs `update` (rendering and the re-registration of the frame callback are
presentation glue carrying no simulation state). -/
def step (r : ℚ) (s : GameState) : GameState × List Effect :=
  if s.gameRunning then update r s else (s, [])

/-- `FlappyBirdGame.startGame` restricted to simulation state: reset the
state fields, then `resetObstacle` with the draw `r` (the first `gameLoop`
tick is a separate `step`). -/
def startGame (r : ℚ) (s : GameState) : GameState :=
  resetObstacle r
    { s with
      birdY := birdInitialY
      birdVelocity := 0
      birdRotation := 0
      birdRotationVelocity := 0
      obstacleX := canvasWidth
      score := 0
      gameRunning := true
      animationFrame := 0
      animationCounter := 0 }

/-- An input to the simulation: one frame tick (with its `Math.random()`
draw, used only when the obstacle regenerates) or one flap event. -/
inductive Op where
  | tick (r : ℚ)
  | flap
deriving Repr

/-- Apply one input. -/
def applyOp (o : Op) (s : GameState) : GameState :=
  match o with
  | Op.tick r => (step r s).1
  | Op.flap => flap s

/-- Run a sequence of inputs. -/
def runOps (s : GameState) : List Op → GameState
  | [] => s
  | o :: os => runOps (applyOp o s) os

/-- The no-input run: start the game from `initState` with first draw `r0`,
then tick `n` times, the tick of index `k` using the draw `rs k`. -/
def runNoFlap (r0 : ℚ) (rs : ℕ → ℚ) : ℕ → GameState
  | 0 => startGame r0 initState
  | n + 1 => (step (rs n) (runNoFlap r0 rs n)).1

end Rich

namespace Simple

/-! Constants of `CONFIG` in `src/game.js` (the fields the simulation core
reads).  The control is named `jump` and its strength `jumpStrength` in
this variant. -/

/-- CONFIG.gravity = 0.05 -/
def gravity : ℚ := 0.05

/-- CONFIG.jumpStrength = 3 -/
def jumpStrength : ℚ := 3

/-- CONFIG.maxVelocity = 5 -/
def maxVelocity : ℚ := 5

/-- CONFIG.birdInitialY = 300 -/
def birdInitialY : ℚ := 300

/-- CONFIG.birdWidth = 30 -/
def birdWidth : ℚ := 30

/-- CONFIG.birdHeight = 30 -/
def birdHeight : ℚ := 30

/-- CONFIG.birdX = 50 -/
def birdX : ℚ := 50

/-- CONFIG.obstacleWidth = 50 -/
def obstacleWidth : ℚ := 50

/-- CONFIG.obstacleSpeed = 2 -/
def obstacleSpeed : ℚ := 2

/-- CONFIG.gapSize = 150 -/
def gapSize : ℚ := 150

/-- CONFIG.canvasWidth = 400 -/
def canvasWidth : ℚ := 400

/-- CONFIG.canvasHeight = 600 -/
def canvasHeight : ℚ := 600

/-- The mutable `gameState` object of `src/game.js`, minus the canvas
context `ctx`. -/
structure GameState where
  birdY : ℚ
  birdVelocity : ℚ
  obstacleX : ℚ
  gap : ℚ
  obstacleHeight : ℚ
  score : ℕ
  ogpPoints : ℚ
  gameRunning : Bool
  animationFrameId : Option ℕ
deriving DecidableEq, Repr

/-- The initial `gameState` literal (lines 35-46 of `src/game.js`). -/
def initState : GameState :=
  { birdY := birdInitialY
    birdVelocity := 0
    obstacleX := canvasWidth
    gap := gapSize
    obstacleHeight := 0
    score := 0
    ogpPoints := 0
    gameRunning := false
    animationFrameId := none }

/-- `FlappyBirdGame.resetObstacle` of `src/game.js`. -/
def resetObstacle (r : ℚ) (s : GameState) : GameState :=
  { s with
    obstacleX := canvasWidth
    obstacleHeight := r * (canvasHeight - s.gap - 100) + 50 }

/-- `FlappyBirdGame.endGame` of `src/game.js`: same shape as the rich
variant's. -/
def endGame (s : GameState) : GameState × List Effect :=
  let s1 := { s with gameRunning := false }
  let s2 := if s1.animationFrameId.isSome
            then { s1 with animationFrameId := none } else s1
  (s2, if s.score > 0 then [Effect.saveScore s.score] else [])

/-- `FlappyBirdGame.checkCollisions` of `src/game.js`. -/
def checkCollisions (s : GameState) : GameState × List Effect :=
  if s.birdY < 0 ∨ s.birdY + birdHeight > canvasHeight then
    endGame s
  else
    let birdRight := birdX + birdWidth
    let birdBottom := s.birdY + birdHeight
    let obstacleRight := s.obstacleX + obstacleWidth
    if birdRight > s.obstacleX ∧ birdX < obstacleRight ∧
        (s.birdY < s.obstacleHeight ∨ birdBottom > s.obstacleHeight + s.gap)
    then endGame s
    else (s, [])

/-- `FlappyBirdGame.jump` of `src/game.js`. -/
def jump (s : GameState) : GameState :=
  if s.gameRunning then { s with birdVelocity := -jumpStrength } else s

/-- `FlappyBirdGame.update` of `src/game.js`: bird physics, obstacle
advance, inline pass-through handling (no incremental point push in this
variant), then the collision check. -/
def update (r : ℚ) (s : GameState) : GameState × List Effect :=
  let v := min (s.birdVelocity + gravity) maxVelocity
  let s1 := { s with birdVelocity := v, birdY := s.birdY + v }
  let s2 := { s1 with obstacleX := s1.obstacleX - obstacleSpeed }
  let s3 := if s2.obstacleX < -obstacleWidth then
      let s4 := resetObstacle r s2
      { s4 with score := s4.score + 1 }
    else s2
  checkCollisions s3

/-- One `gameLoop` iteration of `src/game.js` restricted to simulation
state. -/
def step (r : ℚ) (s : GameState) : GameState × List Effect :=
  if s.gameRunning then update r s else (s, [])

/-- `FlappyBirdGame.startGame` of `src/game.js` restricted to simulation
state. -/
def startGame (r : ℚ) (s : GameState) : GameState :=
  resetObstacle r
    { s with
      birdY := birdInitialY
      birdVelocity := 0
      obstacleX := canvasWidth
      score := 0
      gameRunning := true }

/-- An input to the simulation of `src/game.js`. -/
inductive Op where
  | tick (r : ℚ)
  | jump
deriving Repr

/-- Apply one input. -/
def applyOp (o : Op) (s : GameState) : GameState :=
  match o with
  | Op.tick r => (step r s).1
  | Op.jump => jump s

/-- Run a sequence of inputs. -/
def runOps (s : GameState) : List Op → GameState
  | [] => s
  | o :: os => runOps (applyOp o s) os

/-- The no-input run of `src/game.js`. -/
def runNoFlap (r0 : ℚ) (rs : ℕ → ℚ) : ℕ → GameState
  | 0 => startGame r0 initState
  | n + 1 => (step (rs n) (runNoFlap r0 rs n)).1

end Simple

/-! A small deterministic projection of the no-input run, shared by both
variants: while the obstacle column is strictly to the right of the bird,
the frame tick acts on `(birdY, birdVelocity, obstacleX, gameRunning)`
exactly as `liteStep` below, and these four fields do not depend on any
random draw.  All the rationals that arise in the free-fall run are
multiples of `1/40` (gravity is `1/20`, positions accumulate halves of
it), so the projection stores each value scaled by `40` as an integer,
which the kernel can evaluate: `1/20 ↦ 2`, `5 ↦ 200`, `300 ↦ 12000`,
`30 ↦ 1200`, `600 ↦ 24000`, `400 ↦ 16000`, `2 ↦ 80`,
`birdX + birdWidth = 80 ↦ 3200`, `canvasHeight - birdHeight = 570 ↦ 22800`. -/

/-- The four fields of the game state that drive the free-fall run, each
scaled by `40`. -/
structure LiteState where
  y : ℤ
  v : ℤ
  ox : ℤ
  run : Bool
deriving DecidableEq, Repr

/-- The action of one frame tick on the four projected fields (scaled by
`40`), valid while the obstacle cannot overlap the bird horizontally (both
variants use the same constants here). -/
def liteStep (t : LiteState) : LiteState :=
  if t.run then
    let v := min (t.v + 2) 200
    let y := t.y + v
    { y := y, v := v, ox := t.ox - 80
      run := decide (¬ (y < 0 ∨ y + 1200 > 24000)) }
  else t

/-- The scaled projection of the freshly started state (both variants). -/
def liteStart : LiteState :=
  { y := 12000, v := 0, ox := 16000, run := true }

/-- Single-pass checker for the free-fall run: for `n + 1` remaining ticks,
the state must still be running with the obstacle at or right of the
bird's right edge after the coming advance; after the last checked tick the
game must be over with the bird past the ground line (`570` scaled). -/
def liteCheck : ℕ → LiteState → Bool
  | 0, t => !t.run && decide ((22800 : ℤ) < t.y)
  | n + 1, t =>
      (t.run && decide ((3200 : ℤ) ≤ t.ox - 80)) && liteCheck n (liteStep t)

/-- The coupling between a variant's four driving fields and a scaled
projection. -/
def LiteRel (y v ox : ℚ) (run : Bool) (t : LiteState) : Prop :=
  (t.y : ℚ) = 40 * y ∧ (t.v : ℚ) = 40 * v ∧ (t.ox : ℚ) = 40 * ox ∧ t.run = run

/-- Coupling of a rich-variant state with a scaled projection. -/
def Rich.Proj (s : Rich.GameState) (t : LiteState) : Prop :=
  LiteRel s.birdY s.birdVelocity s.obstacleX s.gameRunning t

/-- Coupling of a simple-variant state with a scaled projection. -/
def Simple.Proj (s : Simple.GameState) (t : LiteState) : Prop :=
  LiteRel s.birdY s.birdVelocity s.obstacleX s.gameRunning t

/-- The rich variant's state at the moment `update` reaches
`this.checkCollisions()`: the composition of the four preceding update
phases.  `update r s` is definitionally `checkCollisions (preCheck r s)`
together with the pass-through effects. -/
def Rich.preCheck (r : ℚ) (s : Rich.GameState) : Rich.GameState :=
  Rich.updateAnimation
    ((Rich.updateObstaclePassed r
      (Rich.updateObstaclePosition
        (Rich.updateBirdRotation (Rich.updateBirdPosition s)))).1)

/-- The simple variant's state at the moment its inline `update` reaches
`this.checkCollisions()`. -/
def Simple.preCheck (r : ℚ) (s : Simple.GameState) : Simple.GameState :=
  let v := min (s.birdVelocity + Simple.gravity) Simple.maxVelocity
  let s1 := { s with birdVelocity := v, birdY := s.birdY + v }
  let s2 := { s1 with obstacleX := s1.obstacleX - Simple.obstacleSpeed }
  if s2.obstacleX < -Simple.obstacleWidth then
    let s4 := Simple.resetObstacle r s2
    { s4 with score := s4.score + 1 }
  else s2

/-! Concrete states used to instantiate the theorems below on sample
inputs. -/

/-- A sample mid-air running state of the rich variant, with a velocity
already above `maxVelocity` and a positive score. -/
def Rich.exRunning : Rich.GameState :=
  { birdY := 100
    birdVelocity := 9
    birdRotation := 1
    birdRotationVelocity := 0
    obstacleX := 200
    gap := Rich.gapSize
    obstacleHeight := 120
    score := 3
    ogpPoints := 0
    gameRunning := true
    animationFrameId := some 7
    animationFrame := 0
    animationCounter := 4 }

/-- A sample stopped state of the rich variant. -/
def Rich.exStopped : Rich.GameState :=
  { Rich.exRunning with gameRunning := false, score := 0 }

/-- A sample state of the rich variant with the obstacle fully off-screen,
about to be recycled by the next tick. -/
def Rich.exPassing : Rich.GameState :=
  { Rich.exRunning with obstacleX := -49, birdY := 300, birdVelocity := 0 }

/-- A sample out-of-bounds state of the rich variant (bird past the
ground line). -/
def Rich.exGrounded : Rich.GameState :=
  { Rich.exRunning with birdY := 580 }

/-- A sample mid-air running state of the simple variant. -/
def Simple.exRunning : Simple.GameState :=
  { birdY := 100
    birdVelocity := 9
    obstacleX := 200
    gap := Simple.gapSize
    obstacleHeight := 120
    score := 3
    ogpPoints := 0
    gameRunning := true
    animationFrameId := some 7 }

/-- A sample stopped state of the simple variant. -/
def Simple.exStopped : Simple.GameState :=
  { Simple.exRunning with gameRunning := false, score := 0 }

/-- A sample state of the simple variant with the obstacle fully
off-screen. -/
def Simple.exPassing : Simple.GameState :=
  { Simple.exRunning with obstacleX := -49, birdY := 300, birdVelocity := 0 }

/-- A sample out-of-bounds state of the simple variant. -/
def Simple.exGrounded : Simple.GameState :=
  { Simple.exRunning with birdY := 580 }

/-! Helper lemmas about the rich variant. -/

namespace Rich

theorem endGame_eq (s : GameState) :
    endGame s = ({ s with gameRunning := false, animationFrameId := none },
      if s.score > 0 then [Effect.saveScore s.score] else []) := by
  cases h : s.animationFrameId <;> simp [endGame, h]

theorem checkCollisions_eq (s : GameState) :
    checkCollisions s =
      if (s.birdY < 0 ∨ s.birdY + birdHeight > canvasHeight) ∨
          (birdX + birdWidth > s.obstacleX ∧ birdX < s.obstacleX + obstacleWidth ∧
            (s.birdY < s.obstacleHeight ∨
              s.birdY + birdHeight > s.obstacleHeight + s.gap))
      then ({ s with gameRunning := false, animationFrameId := none },
            if s.score > 0 then [Effect.saveScore s.score] else [])
      else (s, []) := by
  unfold checkCollisions
  dsimp only
  simp only [endGame_eq]
  by_cases h1 : s.birdY < 0 ∨ s.birdY + birdHeight > canvasHeight
  · rw [if_pos h1, if_pos (Or.inl h1)]
  · rw [if_neg h1]
    by_cases h2 : birdX + birdWidth > s.obstacleX ∧ birdX < s.obstacleX + obstacleWidth ∧
        (s.birdY < s.obstacleHeight ∨ s.birdY + birdHeight > s.obstacleHeight + s.gap)
    · rw [if_pos h2, if_pos (Or.inr h2)]
    · rw [if_neg h2, if_neg (by tauto)]

theorem checkCollisions_birdY (s : GameState) :
    ((checkCollisions s).1).birdY = s.birdY := by
  rw [checkCollisions_eq]; split_ifs <;> rfl

theorem checkCollisions_birdVelocity (s : GameState) :
    ((checkCollisions s).1).birdVelocity = s.birdVelocity := by
  rw [checkCollisions_eq]; split_ifs <;> rfl

theorem checkCollisions_score (s : GameState) :
    ((checkCollisions s).1).score = s.score := by
  rw [checkCollisions_eq]; split_ifs <;> rfl

theorem checkCollisions_obstacleX (s : GameState) :
    ((checkCollisions s).1).obstacleX = s.obstacleX := by
  rw [checkCollisions_eq]; split_ifs <;> rfl

theorem checkCollisions_birdRotation (s : GameState) :
    ((checkCollisions s).1).birdRotation = s.birdRotation := by
  rw [checkCollisions_eq]; split_ifs <;> rfl

theorem checkCollisions_birdRotationVelocity (s : GameState) :
    ((checkCollisions s).1).birdRotationVelocity = s.birdRotationVelocity := by
  rw [checkCollisions_eq]; split_ifs <;> rfl

theorem checkCollisions_running_true (s : GameState)
    (h : ((checkCollisions s).1).gameRunning = true) :
    ¬ (s.birdY < 0 ∨ s.birdY + birdHeight > canvasHeight) := by
  rw [checkCollisions_eq] at h
  split_ifs at h with hc
  exact fun hy => hc (Or.inl hy)

theorem update_fst (r : ℚ) (s : GameState) :
    (update r s).1 =
      (checkCollisions (updateAnimation
        ((updateObstaclePassed r (updateObstaclePosition
          (updateBirdRotation (updateBirdPosition s)))).1))).1 := rfl

theorem update_birdVelocity (r : ℚ) (s : GameState) :
    ((update r s).1).birdVelocity = min (s.birdVelocity + gravity) maxVelocity := by
  simp only [update, updateBirdPosition, updateBirdRotation, updateObstaclePosition,
    updateObstaclePassed, updateAnimation, updateAnimationFrame, resetObstacle,
    checkCollisions_eq]
  split_ifs <;> rfl

theorem update_birdY (r : ℚ) (s : GameState) :
    ((update r s).1).birdY = s.birdY + min (s.birdVelocity + gravity) maxVelocity := by
  simp only [update, updateBirdPosition, updateBirdRotation, updateObstaclePosition,
    updateObstaclePassed, updateAnimation, updateAnimationFrame, resetObstacle,
    checkCollisions_eq]
  split_ifs <;> rfl

theorem update_score (r : ℚ) (s : GameState) :
    ((update r s).1).score =
      if s.obstacleX - obstacleSpeed < -obstacleWidth then s.score + 1 else s.score := by
  simp only [update, updateBirdPosition, updateBirdRotation, updateObstaclePosition,
    updateObstaclePassed, updateAnimation, updateAnimationFrame, resetObstacle,
    checkCollisions_eq]
  split_ifs <;> rfl

theorem update_obstacleX (r : ℚ) (s : GameState) :
    ((update r s).1).obstacleX =
      if s.obstacleX - obstacleSpeed < -obstacleWidth then canvasWidth
      else s.obstacleX - obstacleSpeed := by
  simp only [update, updateBirdPosition, updateBirdRotation, updateObstaclePosition,
    updateObstaclePassed, updateAnimation, updateAnimationFrame, resetObstacle,
    checkCollisions_eq]
  split_ifs <;> rfl

theorem update_running_bounds (r : ℚ) (s : GameState)
    (h : ((update r s).1).gameRunning = true) :
    0 ≤ ((update r s).1).birdY ∧
      ((update r s).1).birdY ≤ canvasHeight - birdHeight := by
  rw [update_fst] at h ⊢
  have hb := checkCollisions_running_true _ h
  rw [checkCollisions_birdY]
  push_neg at hb
  constructor
  · exact hb.1
  · have := hb.2
    unfold birdHeight canvasHeight at this ⊢
    linarith

end Rich

/-! Helper lemmas about the simple variant. -/

namespace Simple

theorem endGame_eqS (s : GameState) :
    endGame s = ({ s with gameRunning := false, animationFrameId := none },
      if s.score > 0 then [Effect.saveScore s.score] else []) := by
  cases h : s.animationFrameId <;> simp [endGame, h]

theorem checkCollisions_eqS (s : GameState) :
    checkCollisions s =
      if (s.birdY < 0 ∨ s.birdY + birdHeight > canvasHeight) ∨
          (birdX + birdWidth > s.obstacleX ∧ birdX < s.obstacleX + obstacleWidth ∧
            (s.birdY < s.obstacleHeight ∨
              s.birdY + birdHeight > s.obstacleHeight + s.gap))
      then ({ s with gameRunning := false, animationFrameId := none },
            if s.score > 0 then [Effect.saveScore s.score] else [])
      else (s, []) := by
  unfold checkCollisions
  dsimp only
  simp only [endGame_eqS]
  by_cases h1 : s.birdY < 0 ∨ s.birdY + birdHeight > canvasHeight
  · rw [if_pos h1, if_pos (Or.inl h1)]
  · rw [if_neg h1]
    by_cases h2 : birdX + birdWidth > s.obstacleX ∧ birdX < s.obstacleX + obstacleWidth ∧
        (s.birdY < s.obstacleHeight ∨ s.birdY + birdHeight > s.obstacleHeight + s.gap)
    · rw [if_pos h2, if_pos (Or.inr h2)]
    · rw [if_neg h2, if_neg (by tauto)]

theorem checkCollisions_birdYS (s : GameState) :
    ((checkCollisions s).1).birdY = s.birdY := by
  rw [checkCollisions_eqS]; split_ifs <;> rfl

theorem checkCollisions_birdVelocityS (s : GameState) :
    ((checkCollisions s).1).birdVelocity = s.birdVelocity := by
  rw [checkCollisions_eqS]; split_ifs <;> rfl

theorem checkCollisions_scoreS (s : GameState) :
    ((checkCollisions s).1).score = s.score := by
  rw [checkCollisions_eqS]; split_ifs <;> rfl

theorem checkCollisions_obstacleXS (s : GameState) :
    ((checkCollisions s).1).obstacleX = s.obstacleX := by
  rw [checkCollisions_eqS]; split_ifs <;> rfl

theorem checkCollisions_running_trueS (s : GameState)
    (h : ((checkCollisions s).1).gameRunning = true) :
    ¬ (s.birdY < 0 ∨ s.birdY + birdHeight > canvasHeight) := by
  rw [checkCollisions_eqS] at h
  split_ifs at h with hc
  exact fun hy => hc (Or.inl hy)

theorem update_birdVelocityS (r : ℚ) (s : GameState) :
    ((update r s).1).birdVelocity = min (s.birdVelocity + gravity) maxVelocity := by
  simp only [update, resetObstacle, checkCollisions_eqS]
  split_ifs <;> rfl

theorem update_birdYS (r : ℚ) (s : GameState) :
    ((update r s).1).birdY = s.birdY + min (s.birdVelocity + gravity) maxVelocity := by
  simp only [update, resetObstacle, checkCollisions_eqS]
  split_ifs <;> rfl

theorem update_scoreS (r : ℚ) (s : GameState) :
    ((update r s).1).score =
      if s.obstacleX - obstacleSpeed < -obstacleWidth then s.score + 1 else s.score := by
  simp only [update, resetObstacle, checkCollisions_eqS]
  split_ifs <;> rfl

theorem update_obstacleXS (r : ℚ) (s : GameState) :
    ((update r s).1).obstacleX =
      if s.obstacleX - obstacleSpeed < -obstacleWidth then canvasWidth
      else s.obstacleX - obstacleSpeed := by
  simp only [update, resetObstacle, checkCollisions_eqS]
  split_ifs <;> rfl

theorem update_running_boundsS (r : ℚ) (s : GameState)
    (h : ((update r s).1).gameRunning = true) :
    0 ≤ ((update r s).1).birdY ∧
      ((update r s).1).birdY ≤ canvasHeight - birdHeight := by
  obtain ⟨m, hm⟩ : ∃ m, update r s = checkCollisions m := ⟨_, rfl⟩
  rw [hm] at h ⊢
  have hb := checkCollisions_running_trueS _ h
  rw [checkCollisions_birdYS]
  push_neg at hb
  refine ⟨hb.1, ?_⟩
  have := hb.2
  unfold birdHeight canvasHeight at this ⊢
  linarith

end Simple

/-! Lemmas about flap/jump and input sequences. -/

namespace Rich

theorem flap_run (s : GameState) (h : s.gameRunning = true) :
    flap s = updateAnimationFrame { s with birdVelocity := -flapStrength } := by
  simp [flap, h]

theorem flap_stopped (s : GameState) (h : s.gameRunning = false) :
    flap s = s := by
  simp [flap, h]

theorem flap_birdVelocity_run (s : GameState) (h : s.gameRunning = true) :
    (flap s).birdVelocity = -flapStrength := by
  rw [flap_run s h]; rfl

theorem flap_birdY (s : GameState) : (flap s).birdY = s.birdY := by
  unfold flap updateAnimationFrame
  split_ifs <;> rfl

theorem flap_gameRunning (s : GameState) :
    (flap s).gameRunning = s.gameRunning := by
  unfold flap updateAnimationFrame
  split_ifs <;> rfl

theorem flap_birdVelocity_le (s : GameState) (h : s.birdVelocity ≤ maxVelocity) :
    (flap s).birdVelocity ≤ maxVelocity := by
  unfold flap updateAnimationFrame
  split_ifs <;> first
  | exact h
  | · show -flapStrength ≤ maxVelocity
      unfold flapStrength maxVelocity
      norm_num

theorem applyOp_velocity_le (o : Op) (s : GameState)
    (h : s.birdVelocity ≤ maxVelocity) :
    (applyOp o s).birdVelocity ≤ maxVelocity := by
  cases o with
  | tick r =>
      unfold applyOp step
      split_ifs with hr
      · rw [update_birdVelocity]; exact min_le_right _ _
      · exact h
  | flap => exact flap_birdVelocity_le s h

theorem runOps_velocity_le (s : GameState) (ops : List Op)
    (h : s.birdVelocity ≤ maxVelocity) :
    (runOps s ops).birdVelocity ≤ maxVelocity := by
  induction ops generalizing s with
  | nil => exact h
  | cons o os ih => exact ih _ (applyOp_velocity_le o s h)

theorem applyOp_bounds (o : Op) (s : GameState)
    (h : s.gameRunning = true → 0 ≤ s.birdY ∧ s.birdY ≤ canvasHeight - birdHeight) :
    (applyOp o s).gameRunning = true →
      0 ≤ (applyOp o s).birdY ∧ (applyOp o s).birdY ≤ canvasHeight - birdHeight := by
  cases o with
  | tick r =>
      unfold applyOp step
      split_ifs with hr
      · exact fun hrun => update_running_bounds r s hrun
      · exact h
  | flap =>
      show (flap s).gameRunning = true →
        0 ≤ (flap s).birdY ∧ (flap s).birdY ≤ canvasHeight - birdHeight
      intro hrun
      rw [flap_gameRunning] at hrun
      rw [flap_birdY]
      exact h hrun

theorem runOps_bounds (s : GameState) (ops : List Op)
    (h : s.gameRunning = true → 0 ≤ s.birdY ∧ s.birdY ≤ canvasHeight - birdHeight) :
    (runOps s ops).gameRunning = true →
      0 ≤ (runOps s ops).birdY ∧
        (runOps s ops).birdY ≤ canvasHeight - birdHeight := by
  induction ops generalizing s with
  | nil => exact h
  | cons o os ih => exact ih _ (applyOp_bounds o s h)

theorem startGame_birdY (r : ℚ) (s : GameState) :
    (startGame r s).birdY = birdInitialY := by
  simp [startGame, resetObstacle]

theorem startGame_gameRunning (r : ℚ) (s : GameState) :
    (startGame r s).gameRunning = true := by
  simp [startGame, resetObstacle]

end Rich

namespace Simple

theorem jump_run (s : GameState) (h : s.gameRunning = true) :
    jump s = { s with birdVelocity := -jumpStrength } := by
  simp [jump, h]

theorem jump_stopped (s : GameState) (h : s.gameRunning = false) :
    jump s = s := by
  simp [jump, h]

theorem jump_birdY (s : GameState) : (jump s).birdY = s.birdY := by
  unfold jump
  split_ifs <;> rfl

theorem jump_gameRunning (s : GameState) :
    (jump s).gameRunning = s.gameRunning := by
  unfold jump
  split_ifs <;> rfl

theorem jump_birdVelocity_le (s : GameState) (h : s.birdVelocity ≤ maxVelocity) :
    (jump s).birdVelocity ≤ maxVelocity := by
  unfold jump
  split_ifs <;> first
  | exact h
  | · show -jumpStrength ≤ maxVelocity
      unfold jumpStrength maxVelocity
      norm_num

theorem applyOp_velocity_leS (o : Op) (s : GameState)
    (h : s.birdVelocity ≤ maxVelocity) :
    (applyOp o s).birdVelocity ≤ maxVelocity := by
  cases o with
  | tick r =>
      unfold applyOp step
      split_ifs with hr
      · rw [update_birdVelocityS]; exact min_le_right _ _
      · exact h
  | jump => exact jump_birdVelocity_le s h

theorem runOps_velocity_leS (s : GameState) (ops : List Op)
    (h : s.birdVelocity ≤ maxVelocity) :
    (runOps s ops).birdVelocity ≤ maxVelocity := by
  induction ops generalizing s with
  | nil => exact h
  | cons o os ih => exact ih _ (applyOp_velocity_leS o s h)

theorem applyOp_boundsS (o : Op) (s : GameState)
    (h : s.gameRunning = true → 0 ≤ s.birdY ∧ s.birdY ≤ canvasHeight - birdHeight) :
    (applyOp o s).gameRunning = true →
      0 ≤ (applyOp o s).birdY ∧ (applyOp o s).birdY ≤ canvasHeight - birdHeight := by
  cases o with
  | tick r =>
      unfold applyOp step
      split_ifs with hr
      · exact fun hrun => update_running_boundsS r s hrun
      · exact h
  | jump =>
      show (jump s).gameRunning = true →
        0 ≤ (jump s).birdY ∧ (jump s).birdY ≤ canvasHeight - birdHeight
      intro hrun
      rw [jump_gameRunning] at hrun
      rw [jump_birdY]
      exact h hrun

theorem runOps_boundsS (s : GameState) (ops : List Op)
    (h : s.gameRunning = true → 0 ≤ s.birdY ∧ s.birdY ≤ canvasHeight - birdHeight) :
    (runOps s ops).gameRunning = true →
      0 ≤ (runOps s ops).birdY ∧
        (runOps s ops).birdY ≤ canvasHeight - birdHeight := by
  induction ops generalizing s with
  | nil => exact h
  | cons o os ih => exact ih _ (applyOp_boundsS o s h)

theorem startGame_birdYS (r : ℚ) (s : GameState) :
    (startGame r s).birdY = birdInitialY := by
  simp [startGame, resetObstacle]

theorem startGame_gameRunningS (r : ℚ) (s : GameState) :
    (startGame r s).gameRunning = true := by
  simp [startGame, resetObstacle]

end Simple

/-! Coupling of both variants with the scaled integer projection. -/

/-- Scaling by `40` distributes over `min` in `ℚ`. -/
theorem mul40_min (a b : ℚ) : 40 * min a b = min (40 * a) (40 * b) := by
  rcases le_total a b with h | h
  · rw [min_eq_left h, min_eq_left (by linarith)]
  · rw [min_eq_right h, min_eq_right (by linarith)]

theorem liteStep_run_true (t : LiteState) (ht : t.run = true) :
    liteStep t =
      { y := t.y + min (t.v + 2) 200
        v := min (t.v + 2) 200
        ox := t.ox - 80
        run := decide (¬ (t.y + min (t.v + 2) 200 < 0 ∨
          t.y + min (t.v + 2) 200 + 1200 > 24000)) } := by
  simp [liteStep, ht]

namespace Rich

theorem update_eq_preCheck (r : ℚ) (s : GameState) :
    (update r s).1 = (checkCollisions (preCheck r s)).1 := rfl

theorem preCheck_birdY (r : ℚ) (s : GameState) :
    (preCheck r s).birdY = s.birdY + min (s.birdVelocity + gravity) maxVelocity := by
  simp only [preCheck, updateBirdPosition, updateBirdRotation, updateObstaclePosition,
    updateObstaclePassed, updateAnimation, updateAnimationFrame, resetObstacle]
  split_ifs <;> rfl

theorem preCheck_birdVelocity (r : ℚ) (s : GameState) :
    (preCheck r s).birdVelocity = min (s.birdVelocity + gravity) maxVelocity := by
  simp only [preCheck, updateBirdPosition, updateBirdRotation, updateObstaclePosition,
    updateObstaclePassed, updateAnimation, updateAnimationFrame, resetObstacle]
  split_ifs <;> rfl

theorem preCheck_gameRunning (r : ℚ) (s : GameState) :
    (preCheck r s).gameRunning = s.gameRunning := by
  simp only [preCheck, updateBirdPosition, updateBirdRotation, updateObstaclePosition,
    updateObstaclePassed, updateAnimation, updateAnimationFrame, resetObstacle]
  split_ifs <;> rfl

theorem preCheck_obstacleX_far (r : ℚ) (s : GameState)
    (hfar : (80 : ℚ) ≤ s.obstacleX - obstacleSpeed) :
    (preCheck r s).obstacleX = s.obstacleX - obstacleSpeed := by
  have hno : ¬ (s.obstacleX - obstacleSpeed < -obstacleWidth) := by
    unfold obstacleWidth; intro h; linarith
  simp only [preCheck, updateBirdPosition, updateBirdRotation, updateObstaclePosition,
    updateObstaclePassed, updateAnimation, updateAnimationFrame, resetObstacle]
  split_ifs <;> rfl

theorem update_gameRunning_far (r : ℚ) (s : GameState)
    (hfar : (80 : ℚ) ≤ s.obstacleX - obstacleSpeed) (hrun : s.gameRunning = true) :
    ((update r s).1).gameRunning =
      decide (¬ (s.birdY + min (s.birdVelocity + gravity) maxVelocity < 0 ∨
        s.birdY + min (s.birdVelocity + gravity) maxVelocity + birdHeight
          > canvasHeight)) := by
  rw [update_eq_preCheck, checkCollisions_eq]
  have hov : ¬ (birdX + birdWidth > (preCheck r s).obstacleX ∧
      birdX < (preCheck r s).obstacleX + obstacleWidth ∧
      ((preCheck r s).birdY < (preCheck r s).obstacleHeight ∨
        (preCheck r s).birdY + birdHeight >
          (preCheck r s).obstacleHeight + (preCheck r s).gap)) := by
    rw [preCheck_obstacleX_far r s hfar]
    unfold birdX birdWidth
    intro h
    have := h.1
    linarith
  by_cases hg : (preCheck r s).birdY < 0 ∨ (preCheck r s).birdY + birdHeight > canvasHeight
  · rw [if_pos (Or.inl hg)]
    rw [preCheck_birdY] at hg
    simp [hg]
  · rw [if_neg (by tauto)]
    rw [preCheck_birdY] at hg
    simp [hg, preCheck_gameRunning, hrun]

theorem step_proj (r : ℚ) (s : GameState) (t : LiteState)
    (hrel : Proj s t) (hox : (3200 : ℤ) ≤ t.ox - 80) :
    Proj ((step r s).1) (liteStep t) := by
  obtain ⟨hy, hv, hx, hr⟩ := hrel
  cases hrun : s.gameRunning with
  | false =>
      have ht : t.run = false := by rw [hr, hrun]
      simp only [step, hrun, Bool.false_eq_true, if_false, liteStep, ht]
      exact ⟨hy, hv, hx, by rw [hr]⟩
  | true =>
      have ht : t.run = true := by rw [hr, hrun]
      have hstep : (step r s).1 = (update r s).1 := by simp [step, hrun]
      have hoxQ : (3200 : ℚ) ≤ (t.ox : ℚ) - 80 := by exact_mod_cast hox
      have hfar : (80 : ℚ) ≤ s.obstacleX - obstacleSpeed := by
        unfold obstacleSpeed
        rw [hx] at hoxQ
        linarith
      have key : ((min (t.v + 2) 200 : ℤ) : ℚ)
          = 40 * min (s.birdVelocity + gravity) maxVelocity := by
        rcases le_total (s.birdVelocity + gravity) maxVelocity with h | h
        · have hz : t.v + 2 ≤ 200 := by
            have hq : (t.v : ℚ) + 2 ≤ 200 := by
              rw [hv]
              unfold gravity maxVelocity at h
              linarith
            exact_mod_cast hq
          rw [min_eq_left hz, min_eq_left h]
          push_cast
          rw [hv]
          unfold gravity
          ring
        · have hz : (200 : ℤ) ≤ t.v + 2 := by
            have hq : (200 : ℚ) ≤ (t.v : ℚ) + 2 := by
              rw [hv]
              unfold gravity maxVelocity at h
              linarith
            exact_mod_cast hq
          rw [min_eq_right hz, min_eq_right h]
          unfold maxVelocity
          norm_num
      have hyQ : ((t.y + min (t.v + 2) 200 : ℤ) : ℚ)
          = 40 * (s.birdY + min (s.birdVelocity + gravity) maxVelocity) := by
        rw [Int.cast_add, key, hy]
        ring
      rw [liteStep_run_true t ht]
      refine ⟨?_, ?_, ?_, ?_⟩
      · show ((t.y + min (t.v + 2) 200 : ℤ) : ℚ) = 40 * ((step r s).1).birdY
        rw [hstep, update_birdY, hyQ]
      · show ((min (t.v + 2) 200 : ℤ) : ℚ) = 40 * ((step r s).1).birdVelocity
        rw [hstep, update_birdVelocity, key]
      · show ((t.ox - 80 : ℤ) : ℚ) = 40 * ((step r s).1).obstacleX
        rw [hstep, update_obstacleX,
          if_neg (show ¬ (s.obstacleX - obstacleSpeed < -obstacleWidth) by
            intro hlt
            unfold obstacleWidth at hlt
            linarith)]
        rw [Int.cast_sub, hx]
        unfold obstacleSpeed
        push_cast
        ring
      · show decide (¬ (t.y + min (t.v + 2) 200 < 0 ∨
            t.y + min (t.v + 2) 200 + 1200 > 24000))
            = ((step r s).1).gameRunning
        rw [hstep, update_gameRunning_far r s hfar hrun, decide_eq_decide,
          not_iff_not]
        unfold birdHeight canvasHeight
        constructor
        · rintro (h1 | h2)
          · left
            have h1Q : ((t.y + min (t.v + 2) 200 : ℤ) : ℚ) < 0 := by
              exact_mod_cast h1
            rw [hyQ] at h1Q
            linarith
          · right
            have h2Q : (24000 : ℚ) < ((t.y + min (t.v + 2) 200 : ℤ) : ℚ) + 1200 := by
              exact_mod_cast h2
            rw [hyQ] at h2Q
            linarith
        · rintro (h1 | h2)
          · left
            have h1Q : ((t.y + min (t.v + 2) 200 : ℤ) : ℚ) < 0 := by
              rw [hyQ]
              linarith
            exact_mod_cast h1Q
          · right
            have h2Q : (24000 : ℚ) < ((t.y + min (t.v + 2) 200 : ℤ) : ℚ) + 1200 := by
              rw [hyQ]
              linarith
            exact_mod_cast h2Q

end Rich

namespace Simple

theorem update_eq_preCheckS (r : ℚ) (s : GameState) :
    update r s = checkCollisions (preCheck r s) := rfl

theorem preCheck_birdYS (r : ℚ) (s : GameState) :
    (preCheck r s).birdY = s.birdY + min (s.birdVelocity + gravity) maxVelocity := by
  simp only [preCheck, resetObstacle]
  split_ifs <;> rfl

theorem preCheck_birdVelocityS (r : ℚ) (s : GameState) :
    (preCheck r s).birdVelocity = min (s.birdVelocity + gravity) maxVelocity := by
  simp only [preCheck, resetObstacle]
  split_ifs <;> rfl

theorem preCheck_gameRunningS (r : ℚ) (s : GameState) :
    (preCheck r s).gameRunning = s.gameRunning := by
  simp only [preCheck, resetObstacle]
  split_ifs <;> rfl

theorem preCheck_obstacleX_farS (r : ℚ) (s : GameState)
    (hfar : (80 : ℚ) ≤ s.obstacleX - obstacleSpeed) :
    (preCheck r s).obstacleX = s.obstacleX - obstacleSpeed := by
  have hno : ¬ (s.obstacleX - obstacleSpeed < -obstacleWidth) := by
    unfold obstacleWidth; intro h; linarith
  simp only [preCheck, resetObstacle]
  split_ifs
  rfl

theorem update_gameRunning_farS (r : ℚ) (s : GameState)
    (hfar : (80 : ℚ) ≤ s.obstacleX - obstacleSpeed) (hrun : s.gameRunning = true) :
    ((update r s).1).gameRunning =
      decide (¬ (s.birdY + min (s.birdVelocity + gravity) maxVelocity < 0 ∨
        s.birdY + min (s.birdVelocity + gravity) maxVelocity + birdHeight
          > canvasHeight)) := by
  rw [update_eq_preCheckS, checkCollisions_eqS]
  have hov : ¬ (birdX + birdWidth > (preCheck r s).obstacleX ∧
      birdX < (preCheck r s).obstacleX + obstacleWidth ∧
      ((preCheck r s).birdY < (preCheck r s).obstacleHeight ∨
        (preCheck r s).birdY + birdHeight >
          (preCheck r s).obstacleHeight + (preCheck r s).gap)) := by
    rw [preCheck_obstacleX_farS r s hfar]
    unfold birdX birdWidth
    intro h
    have := h.1
    linarith
  by_cases hg : (preCheck r s).birdY < 0 ∨ (preCheck r s).birdY + birdHeight > canvasHeight
  · rw [if_pos (Or.inl hg)]
    rw [preCheck_birdYS] at hg
    simp [hg]
  · rw [if_neg (by tauto)]
    rw [preCheck_birdYS] at hg
    simp [hg, preCheck_gameRunningS, hrun]

theorem step_projS (r : ℚ) (s : GameState) (t : LiteState)
    (hrel : Proj s t) (hox : (3200 : ℤ) ≤ t.ox - 80) :
    Proj ((step r s).1) (liteStep t) := by
  obtain ⟨hy, hv, hx, hr⟩ := hrel
  cases hrun : s.gameRunning with
  | false =>
      have ht : t.run = false := by rw [hr, hrun]
      simp only [step, hrun, Bool.false_eq_true, if_false, liteStep, ht]
      exact ⟨hy, hv, hx, by rw [hr]⟩
  | true =>
      have ht : t.run = true := by rw [hr, hrun]
      have hstep : (step r s).1 = (update r s).1 := by simp [step, hrun]
      have hoxQ : (3200 : ℚ) ≤ (t.ox : ℚ) - 80 := by exact_mod_cast hox
      have hfar : (80 : ℚ) ≤ s.obstacleX - obstacleSpeed := by
        unfold obstacleSpeed
        rw [hx] at hoxQ
        linarith
      have key : ((min (t.v + 2) 200 : ℤ) : ℚ)
          = 40 * min (s.birdVelocity + gravity) maxVelocity := by
        rcases le_total (s.birdVelocity + gravity) maxVelocity with h | h
        · have hz : t.v + 2 ≤ 200 := by
            have hq : (t.v : ℚ) + 2 ≤ 200 := by
              rw [hv]
              unfold gravity maxVelocity at h
              linarith
            exact_mod_cast hq
          rw [min_eq_left hz, min_eq_left h]
          push_cast
          rw [hv]
          unfold gravity
          ring
        · have hz : (200 : ℤ) ≤ t.v + 2 := by
            have hq : (200 : ℚ) ≤ (t.v : ℚ) + 2 := by
              rw [hv]
              unfold gravity maxVelocity at h
              linarith
            exact_mod_cast hq
          rw [min_eq_right hz, min_eq_right h]
          unfold maxVelocity
          norm_num
      have hyQ : ((t.y + min (t.v + 2) 200 : ℤ) : ℚ)
          = 40 * (s.birdY + min (s.birdVelocity + gravity) maxVelocity) := by
        rw [Int.cast_add, key, hy]
        ring
      rw [liteStep_run_true t ht]
      refine ⟨?_, ?_, ?_, ?_⟩
      · show ((t.y + min (t.v + 2) 200 : ℤ) : ℚ) = 40 * ((step r s).1).birdY
        rw [hstep, update_birdYS, hyQ]
      · show ((min (t.v + 2) 200 : ℤ) : ℚ) = 40 * ((step r s).1).birdVelocity
        rw [hstep, update_birdVelocityS, key]
      · show ((t.ox - 80 : ℤ) : ℚ) = 40 * ((step r s).1).obstacleX
        rw [hstep, update_obstacleXS,
          if_neg (show ¬ (s.obstacleX - obstacleSpeed < -obstacleWidth) by
            intro hlt
            unfold obstacleWidth at hlt
            linarith)]
        rw [Int.cast_sub, hx]
        unfold obstacleSpeed
        push_cast
        ring
      · show decide (¬ (t.y + min (t.v + 2) 200 < 0 ∨
            t.y + min (t.v + 2) 200 + 1200 > 24000))
            = ((step r s).1).gameRunning
        rw [hstep, update_gameRunning_farS r s hfar hrun, decide_eq_decide,
          not_iff_not]
        unfold birdHeight canvasHeight
        constructor
        · rintro (h1 | h2)
          · left
            have h1Q : ((t.y + min (t.v + 2) 200 : ℤ) : ℚ) < 0 := by
              exact_mod_cast h1
            rw [hyQ] at h1Q
            linarith
          · right
            have h2Q : (24000 : ℚ) < ((t.y + min (t.v + 2) 200 : ℤ) : ℚ) + 1200 := by
              exact_mod_cast h2
            rw [hyQ] at h2Q
            linarith
        · rintro (h1 | h2)
          · left
            have h1Q : ((t.y + min (t.v + 2) 200 : ℤ) : ℚ) < 0 := by
              rw [hyQ]
              linarith
            exact_mod_cast h1Q
          · right
            have h2Q : (24000 : ℚ) < ((t.y + min (t.v + 2) 200 : ℤ) : ℚ) + 1200 := by
              rw [hyQ]
              linarith
            exact_mod_cast h2Q

end Simple

/-! The free-fall run: extracting per-tick facts from the single-pass
checker, and coupling each variant's run with the lite run. -/

theorem liteCheck_spec : ∀ (n : ℕ) (t : LiteState), liteCheck n t = true →
    (∀ k, k < n → (liteStep^[k] t).run = true ∧
      (3200 : ℤ) ≤ (liteStep^[k] t).ox - 80) ∧
    (liteStep^[n] t).run = false ∧ (22800 : ℤ) < (liteStep^[n] t).y := by
  intro n
  induction n with
  | zero =>
      intro t h
      simp only [liteCheck, Bool.and_eq_true, Bool.not_eq_true', decide_eq_true_eq] at h
      exact ⟨fun k hk => absurd hk (Nat.not_lt_zero k), h.1, h.2⟩
  | succ n ih =>
      intro t h
      simp only [liteCheck, Bool.and_eq_true, decide_eq_true_eq] at h
      obtain ⟨⟨hrun, hox⟩, hrest⟩ := h
      obtain ⟨hall, hfin, hy⟩ := ih (liteStep t) hrest
      refine ⟨?_, ?_, ?_⟩
      · intro k hk
        cases k with
        | zero => exact ⟨hrun, hox⟩
        | succ k =>
            rw [Function.iterate_succ_apply]
            exact hall k (Nat.succ_lt_succ_iff.mp hk)
      · rw [Function.iterate_succ_apply]
        exact hfin
      · rw [Function.iterate_succ_apply]
        exact hy

theorem Rich.runNoFlap_proj (r0 : ℚ) (rs : ℕ → ℚ) (n : ℕ)
    (hpre : ∀ k, k < n → (3200 : ℤ) ≤ (liteStep^[k] liteStart).ox - 80) :
    Proj (runNoFlap r0 rs n) (liteStep^[n] liteStart) := by
  induction n with
  | zero =>
      refine ⟨?_, ?_, ?_, ?_⟩ <;>
        simp [runNoFlap, startGame, resetObstacle, initState, liteStart,
          birdInitialY, canvasWidth] <;> norm_num
  | succ n ih =>
      have hrel := ih (fun k hk => hpre k (Nat.lt_succ_of_lt hk))
      rw [Function.iterate_succ_apply']
      exact step_proj (rs n) _ _ hrel (hpre n (Nat.lt_succ_self n))

theorem Simple.runNoFlap_projS (r0 : ℚ) (rs : ℕ → ℚ) (n : ℕ)
    (hpre : ∀ k, k < n → (3200 : ℤ) ≤ (liteStep^[k] liteStart).ox - 80) :
    Proj (runNoFlap r0 rs n) (liteStep^[n] liteStart) := by
  induction n with
  | zero =>
      refine ⟨?_, ?_, ?_, ?_⟩ <;>
        simp [runNoFlap, startGame, resetObstacle, initState, liteStart,
          birdInitialY, canvasWidth] <;> norm_num
  | succ n ih =>
      have hrel := ih (fun k hk => hpre k (Nat.lt_succ_of_lt hk))
      rw [Function.iterate_succ_apply']
      exact step_projS (rs n) _ _ hrel (hpre n (Nat.lt_succ_self n))

theorem liteCheck_free_fall : liteCheck 104 liteStart = true := by decide

theorem Rich.checkCollisions_out (s : Rich.GameState)
    (h : s.birdY < 0 ∨ s.birdY + Rich.birdHeight > Rich.canvasHeight) :
    ((Rich.checkCollisions s).1).gameRunning = false := by
  rw [Rich.checkCollisions_eq, if_pos (Or.inl h)]

theorem Simple.checkCollisions_outS (s : Simple.GameState)
    (h : s.birdY < 0 ∨ s.birdY + Simple.birdHeight > Simple.canvasHeight) :
    ((Simple.checkCollisions s).1).gameRunning = false := by
  rw [Simple.checkCollisions_eqS, if_pos (Or.inl h)]

/-! The claims. -/

/-- C1: in both variants, while `running == true` the flap/jump handler sets
`birdVelocity` to exactly `-flapStrength` (`-jumpStrength`) whatever the
prior velocity, and while `running == false` it leaves the whole state
unchanged. -/
theorem C1_flap_sets_velocity_only_while_running :
    (∀ s : Rich.GameState, s.gameRunning = true →
      (Rich.flap s).birdVelocity = -Rich.flapStrength) ∧
    (∀ s : Rich.GameState, s.gameRunning = false → Rich.flap s = s) ∧
    (∀ s : Simple.GameState, s.gameRunning = true →
      (Simple.jump s).birdVelocity = -Simple.jumpStrength) ∧
    (∀ s : Simple.GameState, s.gameRunning = false → Simple.jump s = s) := by
  refine ⟨fun s h => Rich.flap_birdVelocity_run s h,
    fun s h => Rich.flap_stopped s h,
    fun s h => ?_,
    fun s h => Simple.jump_stopped s h⟩
  rw [Simple.jump_run s h]

/-- Witness for C1 at concrete states: a running state whose velocity `9`
exceeds `maxVelocity`, and a stopped state. -/
theorem C1_witness :
    (Rich.flap Rich.exRunning).birdVelocity = -Rich.flapStrength ∧
    Rich.flap Rich.exStopped = Rich.exStopped ∧
    (Simple.jump Simple.exRunning).birdVelocity = -Simple.jumpStrength ∧
    Simple.jump Simple.exStopped = Simple.exStopped :=
  ⟨C1_flap_sets_velocity_only_while_running.1 Rich.exRunning rfl,
   C1_flap_sets_velocity_only_while_running.2.1 Rich.exStopped rfl,
   C1_flap_sets_velocity_only_while_running.2.2.1 Simple.exRunning rfl,
   C1_flap_sets_velocity_only_while_running.2.2.2 Simple.exStopped rfl⟩

/-- C2: in both variants the per-tick vertical update computes
`birdVelocity = min (birdVelocity + gravity) maxVelocity`, and over any
sequence of frame ticks and flap/jump inputs starting from a state with
`birdVelocity ≤ maxVelocity`, the velocity never exceeds `maxVelocity`. -/
theorem C2_velocity_never_exceeds_max :
    (∀ s : Rich.GameState,
      (Rich.updateBirdPosition s).birdVelocity
        = min (s.birdVelocity + Rich.gravity) Rich.maxVelocity) ∧
    (∀ (s : Rich.GameState) (ops : List Rich.Op),
      s.birdVelocity ≤ Rich.maxVelocity →
        (Rich.runOps s ops).birdVelocity ≤ Rich.maxVelocity) ∧
    (∀ (r : ℚ) (s : Simple.GameState),
      ((Simple.update r s).1).birdVelocity
        = min (s.birdVelocity + Simple.gravity) Simple.maxVelocity) ∧
    (∀ (s : Simple.GameState) (ops : List Simple.Op),
      s.birdVelocity ≤ Simple.maxVelocity →
        (Simple.runOps s ops).birdVelocity ≤ Simple.maxVelocity) :=
  ⟨fun _ => rfl,
   fun s ops h => Rich.runOps_velocity_le s ops h,
   fun r s => Simple.update_birdVelocityS r s,
   fun s ops h => Simple.runOps_velocity_leS s ops h⟩

/-- Witness for C2: a tick and a flap from a concrete slow state, and the
clamp equation at a concrete state already beyond `maxVelocity`. -/
theorem C2_witness :
    (Rich.updateBirdPosition Rich.exRunning).birdVelocity
      = min (Rich.exRunning.birdVelocity + Rich.gravity) Rich.maxVelocity ∧
    (Rich.runOps Rich.exPassing [Rich.Op.tick (1/2), Rich.Op.flap]).birdVelocity
      ≤ Rich.maxVelocity ∧
    (Simple.runOps Simple.exPassing [Simple.Op.tick (1/2), Simple.Op.jump]).birdVelocity
      ≤ Simple.maxVelocity :=
  ⟨C2_velocity_never_exceeds_max.1 Rich.exRunning,
   C2_velocity_never_exceeds_max.2.1 Rich.exPassing _ (by
     norm_num [Rich.exPassing, Rich.exRunning, Rich.maxVelocity]),
   C2_velocity_never_exceeds_max.2.2.2 Simple.exPassing _ (by
     norm_num [Simple.exPassing, Simple.exRunning, Simple.maxVelocity])⟩

/-- C3: in both variants the collision check ends the game whenever the
bird is past the ceiling (`birdY < 0`) or the ground
(`birdY + birdHeight > canvasHeight`), for every obstacle position, gap
top and gap size; and within a full tick, the test applies to the
post-update `birdY` (the state `preCheck` reaching `checkCollisions`). -/
theorem C3_ground_ceiling_ends_game :
    (∀ s : Rich.GameState,
      s.birdY < 0 ∨ s.birdY + Rich.birdHeight > Rich.canvasHeight →
        ((Rich.checkCollisions s).1).gameRunning = false) ∧
    (∀ (r : ℚ) (s : Rich.GameState),
      (Rich.preCheck r s).birdY < 0 ∨
          (Rich.preCheck r s).birdY + Rich.birdHeight > Rich.canvasHeight →
        ((Rich.update r s).1).gameRunning = false) ∧
    (∀ s : Simple.GameState,
      s.birdY < 0 ∨ s.birdY + Simple.birdHeight > Simple.canvasHeight →
        ((Simple.checkCollisions s).1).gameRunning = false) ∧
    (∀ (r : ℚ) (s : Simple.GameState),
      (Simple.preCheck r s).birdY < 0 ∨
          (Simple.preCheck r s).birdY + Simple.birdHeight > Simple.canvasHeight →
        ((Simple.update r s).1).gameRunning = false) := by
  refine ⟨fun s h => Rich.checkCollisions_out s h,
    fun r s h => ?_,
    fun s h => Simple.checkCollisions_outS s h,
    fun r s h => ?_⟩
  · rw [Rich.update_eq_preCheck]
    exact Rich.checkCollisions_out _ h
  · rw [show (Simple.update r s).1 = (Simple.checkCollisions (Simple.preCheck r s)).1 from
      congrArg Prod.fst (Simple.update_eq_preCheckS r s)]
    exact Simple.checkCollisions_outS _ h

/-- Witness for C3 at a concrete grounded state (`birdY = 580`,
`580 + 30 > 600`). -/
theorem C3_witness :
    ((Rich.checkCollisions Rich.exGrounded).1).gameRunning = false ∧
    ((Simple.checkCollisions Simple.exGrounded).1).gameRunning = false :=
  ⟨C3_ground_ceiling_ends_game.1 Rich.exGrounded (Or.inr (by
      norm_num [Rich.exGrounded, Rich.exRunning, Rich.birdHeight, Rich.canvasHeight])),
   C3_ground_ceiling_ends_game.2.2.1 Simple.exGrounded (Or.inr (by
      norm_num [Simple.exGrounded, Simple.exRunning, Simple.birdHeight,
        Simple.canvasHeight]))⟩

/-- C7: in both variants `endGame` emits exactly one `saveScore` call,
carrying the final score, when the score is positive, and none when the
score is zero; the resulting state is a function of the input state alone
(the save's outcome is not an input), namely the state with only
`gameRunning` and the frame registration changed. -/
theorem C7_saveScore_once_iff_positive :
    (∀ s : Rich.GameState,
      (0 < s.score → (Rich.endGame s).2 = [Effect.saveScore s.score]) ∧
      (s.score = 0 → (Rich.endGame s).2 = []) ∧
      (Rich.endGame s).1
        = { s with gameRunning := false, animationFrameId := none }) ∧
    (∀ s : Simple.GameState,
      (0 < s.score → (Simple.endGame s).2 = [Effect.saveScore s.score]) ∧
      (s.score = 0 → (Simple.endGame s).2 = []) ∧
      (Simple.endGame s).1
        = { s with gameRunning := false, animationFrameId := none }) := by
  constructor
  · intro s
    refine ⟨fun h => ?_, fun h => ?_, ?_⟩
    · rw [show (Rich.endGame s).2 =
          (if s.score > 0 then [Effect.saveScore s.score] else []) from
        congrArg Prod.snd (Rich.endGame_eq s), if_pos h]
    · rw [show (Rich.endGame s).2 =
          (if s.score > 0 then [Effect.saveScore s.score] else []) from
        congrArg Prod.snd (Rich.endGame_eq s), if_neg (by omega)]
    · exact congrArg Prod.fst (Rich.endGame_eq s)
  · intro s
    refine ⟨fun h => ?_, fun h => ?_, ?_⟩
    · rw [show (Simple.endGame s).2 =
          (if s.score > 0 then [Effect.saveScore s.score] else []) from
        congrArg Prod.snd (Simple.endGame_eqS s), if_pos h]
    · rw [show (Simple.endGame s).2 =
          (if s.score > 0 then [Effect.saveScore s.score] else []) from
        congrArg Prod.snd (Simple.endGame_eqS s), if_neg (by omega)]
    · exact congrArg Prod.fst (Simple.endGame_eqS s)

/-- Witness for C7: a state with score `3` saves exactly `[saveScore 3]`,
a state with score `0` saves nothing. -/
theorem C7_witness :
    (Rich.endGame Rich.exRunning).2 = [Effect.saveScore Rich.exRunning.score] ∧
    (Rich.endGame Rich.exStopped).2 = [] ∧
    (Simple.endGame Simple.exRunning).2 = [Effect.saveScore Simple.exRunning.score] ∧
    (Simple.endGame Simple.exStopped).2 = [] :=
  ⟨(C7_saveScore_once_iff_positive.1 Rich.exRunning).1 (by decide),
   (C7_saveScore_once_iff_positive.1 Rich.exStopped).2.1 rfl,
   (C7_saveScore_once_iff_positive.2 Simple.exRunning).1 (by decide),
   (C7_saveScore_once_iff_positive.2 Simple.exStopped).2.1 rfl⟩

/-- C10: in both variants the game-over transition changes only
`gameRunning` and the pending frame registration: score, bird position,
velocity, rotation, obstacle position and geometry and the gap all keep
the values they had at the collision. -/
theorem C10_endGame_preserves_frame :
    (∀ s : Rich.GameState,
      (Rich.endGame s).1
          = { s with gameRunning := false, animationFrameId := none } ∧
      ((Rich.endGame s).1).score = s.score ∧
      ((Rich.endGame s).1).birdY = s.birdY ∧
      ((Rich.endGame s).1).birdVelocity = s.birdVelocity ∧
      ((Rich.endGame s).1).birdRotation = s.birdRotation ∧
      ((Rich.endGame s).1).birdRotationVelocity = s.birdRotationVelocity ∧
      ((Rich.endGame s).1).obstacleX = s.obstacleX ∧
      ((Rich.endGame s).1).obstacleHeight = s.obstacleHeight ∧
      ((Rich.endGame s).1).gap = s.gap ∧
      ((Rich.endGame s).1).gameRunning = false) ∧
    (∀ s : Simple.GameState,
      (Simple.endGame s).1
          = { s with gameRunning := false, animationFrameId := none } ∧
      ((Simple.endGame s).1).score = s.score ∧
      ((Simple.endGame s).1).birdY = s.birdY ∧
      ((Simple.endGame s).1).birdVelocity = s.birdVelocity ∧
      ((Simple.endGame s).1).obstacleX = s.obstacleX ∧
      ((Simple.endGame s).1).obstacleHeight = s.obstacleHeight ∧
      ((Simple.endGame s).1).gap = s.gap ∧
      ((Simple.endGame s).1).gameRunning = false) := by
  constructor
  · intro s
    have h := congrArg Prod.fst (Rich.endGame_eq s)
    refine ⟨h, ?_, ?_, ?_, ?_, ?_, ?_, ?_, ?_, ?_⟩ <;> rw [h]
  · intro s
    have h := congrArg Prod.fst (Simple.endGame_eqS s)
    refine ⟨h, ?_, ?_, ?_, ?_, ?_, ?_, ?_⟩ <;> rw [h]

/-- C5: score increments exactly once per obstacle instance, in both
variants: a tick increments the score iff the obstacle sits past
`-obstacleWidth` at the pass-through check (its pre-tick `obstacleX` minus
the advance), the same tick resets `obstacleX` to `canvasWidth`, and a
tick that incremented leaves a state from which the next tick cannot
increment again. -/
theorem C5_score_once_per_obstacle :
    (∀ (r : ℚ) (s : Rich.GameState),
      (((Rich.updateObstaclePassed r s).1).score = s.score + 1 ↔
        s.obstacleX < -Rich.obstacleWidth) ∧
      (s.obstacleX < -Rich.obstacleWidth →
        ((Rich.updateObstaclePassed r s).1).obstacleX = Rich.canvasWidth)) ∧
    (∀ (r : ℚ) (s : Rich.GameState),
      (((Rich.update r s).1).score = s.score + 1 ↔
        s.obstacleX - Rich.obstacleSpeed < -Rich.obstacleWidth) ∧
      (((Rich.update r s).1).score = s.score + 1 →
        ((Rich.update r s).1).obstacleX = Rich.canvasWidth) ∧
      (∀ r2 : ℚ, ((Rich.update r s).1).score = s.score + 1 →
        ((Rich.update r2 ((Rich.update r s).1)).1).score
          = ((Rich.update r s).1).score)) ∧
    (∀ (r : ℚ) (s : Simple.GameState),
      (((Simple.update r s).1).score = s.score + 1 ↔
        s.obstacleX - Simple.obstacleSpeed < -Simple.obstacleWidth) ∧
      (((Simple.update r s).1).score = s.score + 1 →
        ((Simple.update r s).1).obstacleX = Simple.canvasWidth) ∧
      (∀ r2 : ℚ, ((Simple.update r s).1).score = s.score + 1 →
        ((Simple.update r2 ((Simple.update r s).1)).1).score
          = ((Simple.update r s).1).score)) := by
  have hnoR : ∀ t : Rich.GameState, t.obstacleX = Rich.canvasWidth →
      ¬ (t.obstacleX - Rich.obstacleSpeed < -Rich.obstacleWidth) := by
    intro t hx
    rw [hx]
    unfold Rich.canvasWidth Rich.obstacleSpeed Rich.obstacleWidth
    norm_num
  have hnoS : ∀ t : Simple.GameState, t.obstacleX = Simple.canvasWidth →
      ¬ (t.obstacleX - Simple.obstacleSpeed < -Simple.obstacleWidth) := by
    intro t hx
    rw [hx]
    unfold Simple.canvasWidth Simple.obstacleSpeed Simple.obstacleWidth
    norm_num
  refine ⟨fun r s => ⟨?_, fun h => ?_⟩, fun r s => ⟨?_, fun h => ?_, fun r2 h => ?_⟩,
    fun r s => ⟨?_, fun h => ?_, fun r2 h => ?_⟩⟩
  · unfold Rich.updateObstaclePassed
    split_ifs with h <;> simp [Rich.resetObstacle, h]
  · unfold Rich.updateObstaclePassed
    rw [if_pos h]
    rfl
  · rw [Rich.update_score]
    split_ifs with h <;> simp [h]
  · rw [Rich.update_score] at h
    by_cases hc : s.obstacleX - Rich.obstacleSpeed < -Rich.obstacleWidth
    · rw [Rich.update_obstacleX, if_pos hc]
    · rw [if_neg hc] at h
      omega
  · have hx : ((Rich.update r s).1).obstacleX = Rich.canvasWidth := by
      rw [Rich.update_score] at h
      by_cases hc : s.obstacleX - Rich.obstacleSpeed < -Rich.obstacleWidth
      · rw [Rich.update_obstacleX, if_pos hc]
      · rw [if_neg hc] at h
        omega
    rw [Rich.update_score, if_neg (hnoR _ hx)]
  · rw [Simple.update_scoreS]
    split_ifs with h <;> simp [h]
  · rw [Simple.update_scoreS] at h
    by_cases hc : s.obstacleX - Simple.obstacleSpeed < -Simple.obstacleWidth
    · rw [Simple.update_obstacleXS, if_pos hc]
    · rw [if_neg hc] at h
      omega
  · have hx : ((Simple.update r s).1).obstacleX = Simple.canvasWidth := by
      rw [Simple.update_scoreS] at h
      by_cases hc : s.obstacleX - Simple.obstacleSpeed < -Simple.obstacleWidth
      · rw [Simple.update_obstacleXS, if_pos hc]
      · rw [if_neg hc] at h
        omega
    rw [Simple.update_scoreS, if_neg (hnoS _ hx)]

/-- Witness for C5 at a concrete passing state (`obstacleX = -49`, so the
pass-through check sees `-51 < -50`): the tick increments the score and
recycles the obstacle to `canvasWidth`, and the next tick does not
increment again. -/
theorem C5_witness :
    ((Rich.update (1/2) Rich.exPassing).1).score = Rich.exPassing.score + 1 ∧
    ((Rich.update (1/2) Rich.exPassing).1).obstacleX = Rich.canvasWidth ∧
    ((Rich.update (1/4) ((Rich.update (1/2) Rich.exPassing).1)).1).score
      = ((Rich.update (1/2) Rich.exPassing).1).score ∧
    ((Simple.update (1/2) Simple.exPassing).1).score = Simple.exPassing.score + 1 := by
  have hpassR : Rich.exPassing.obstacleX - Rich.obstacleSpeed < -Rich.obstacleWidth := by
    norm_num [Rich.exPassing, Rich.exRunning, Rich.obstacleSpeed, Rich.obstacleWidth]
  have hpassS : Simple.exPassing.obstacleX - Simple.obstacleSpeed
      < -Simple.obstacleWidth := by
    norm_num [Simple.exPassing, Simple.exRunning, Simple.obstacleSpeed,
      Simple.obstacleWidth]
  have h1 := ((C5_score_once_per_obstacle.2.1 (1/2) Rich.exPassing).1).mpr hpassR
  refine ⟨h1, (C5_score_once_per_obstacle.2.1 (1/2) Rich.exPassing).2.1 h1,
    (C5_score_once_per_obstacle.2.1 (1/2) Rich.exPassing).2.2 (1/4) h1,
    ((C5_score_once_per_obstacle.2.2 (1/2) Simple.exPassing).1).mpr hpassS⟩

/-- C6: in both variants, for every uniform draw `r ∈ [0, 1)` and a state
whose gap equals the configured `gapSize`, the regenerated gap top
(`obstacleHeight`) satisfies
`50 ≤ gapTop ≤ canvasHeight - gapSize - 50`, and the same call resets
`obstacleX` to `canvasWidth`. -/
theorem C6_regenerated_gap_in_bounds :
    (∀ (r : ℚ) (s : Rich.GameState), 0 ≤ r → r < 1 → s.gap = Rich.gapSize →
      50 ≤ (Rich.resetObstacle r s).obstacleHeight ∧
      (Rich.resetObstacle r s).obstacleHeight
        ≤ Rich.canvasHeight - Rich.gapSize - 50 ∧
      (Rich.resetObstacle r s).obstacleX = Rich.canvasWidth) ∧
    (∀ (r : ℚ) (s : Simple.GameState), 0 ≤ r → r < 1 → s.gap = Simple.gapSize →
      50 ≤ (Simple.resetObstacle r s).obstacleHeight ∧
      (Simple.resetObstacle r s).obstacleHeight
        ≤ Simple.canvasHeight - Simple.gapSize - 50 ∧
      (Simple.resetObstacle r s).obstacleX = Simple.canvasWidth) := by
  constructor
  · intro r s h0 h1 hg
    have hh : (Rich.resetObstacle r s).obstacleHeight
        = r * (Rich.canvasHeight - Rich.gapSize - 100) + 50 := by
      rw [show (Rich.resetObstacle r s).obstacleHeight
          = r * (Rich.canvasHeight - s.gap - 100) + 50 from rfl, hg]
    rw [hh]
    unfold Rich.canvasHeight Rich.gapSize
    refine ⟨by nlinarith, by nlinarith, rfl⟩
  · intro r s h0 h1 hg
    have hh : (Simple.resetObstacle r s).obstacleHeight
        = r * (Simple.canvasHeight - Simple.gapSize - 100) + 50 := by
      rw [show (Simple.resetObstacle r s).obstacleHeight
          = r * (Simple.canvasHeight - s.gap - 100) + 50 from rfl, hg]
    rw [hh]
    unfold Simple.canvasHeight Simple.gapSize
    refine ⟨by nlinarith, by nlinarith, rfl⟩

/-- Witness for C6 with the draw `r = 1/2` at a concrete state. -/
theorem C6_witness :
    50 ≤ (Rich.resetObstacle (1/2) Rich.exRunning).obstacleHeight ∧
    (Rich.resetObstacle (1/2) Rich.exRunning).obstacleHeight
      ≤ Rich.canvasHeight - Rich.gapSize - 50 ∧
    50 ≤ (Simple.resetObstacle (1/2) Simple.exRunning).obstacleHeight ∧
    (Simple.resetObstacle (1/2) Simple.exRunning).obstacleHeight
      ≤ Simple.canvasHeight - Simple.gapSize - 50 := by
  have hR := C6_regenerated_gap_in_bounds.1 (1/2) Rich.exRunning
    (by norm_num) (by norm_num) rfl
  have hS := C6_regenerated_gap_in_bounds.2 (1/2) Simple.exRunning
    (by norm_num) (by norm_num) rfl
  exact ⟨hR.1, hR.2.1, hS.1, hS.2.1⟩

/-- C4: in both variants, along every input sequence from a freshly
started game, whenever the game is still running the bird satisfies
`0 ≤ birdY ≤ canvasHeight - birdHeight`; the bound is maintained by the
collision check ending the game (no clamp writes `birdY` back). -/
theorem C4_birdY_bounded_while_running :
    (∀ (s0 : Rich.GameState) (r0 : ℚ) (ops : List Rich.Op),
      (Rich.runOps (Rich.startGame r0 s0) ops).gameRunning = true →
        0 ≤ (Rich.runOps (Rich.startGame r0 s0) ops).birdY ∧
        (Rich.runOps (Rich.startGame r0 s0) ops).birdY
          ≤ Rich.canvasHeight - Rich.birdHeight) ∧
    (∀ (s0 : Simple.GameState) (r0 : ℚ) (ops : List Simple.Op),
      (Simple.runOps (Simple.startGame r0 s0) ops).gameRunning = true →
        0 ≤ (Simple.runOps (Simple.startGame r0 s0) ops).birdY ∧
        (Simple.runOps (Simple.startGame r0 s0) ops).birdY
          ≤ Simple.canvasHeight - Simple.birdHeight) := by
  constructor
  · intro s0 r0 ops
    refine Rich.runOps_bounds _ ops fun _ => ?_
    rw [Rich.startGame_birdY]
    unfold Rich.birdInitialY Rich.canvasHeight Rich.birdHeight
    norm_num
  · intro s0 r0 ops
    refine Simple.runOps_boundsS _ ops fun _ => ?_
    rw [Simple.startGame_birdYS]
    unfold Simple.birdInitialY Simple.canvasHeight Simple.birdHeight
    norm_num

/-- Witness for C4: one tick and one flap after a fresh start. -/
theorem C4_witness :
    0 ≤ (Rich.runOps (Rich.startGame (1/2) Rich.initState)
          [Rich.Op.tick (1/4), Rich.Op.flap]).birdY ∧
    (Rich.runOps (Rich.startGame (1/2) Rich.initState)
        [Rich.Op.tick (1/4), Rich.Op.flap]).birdY
      ≤ Rich.canvasHeight - Rich.birdHeight ∧
    0 ≤ (Simple.runOps (Simple.startGame (1/2) Simple.initState)
          [Simple.Op.tick (1/4), Simple.Op.jump]).birdY := by
  have hrunR : (Rich.runOps (Rich.startGame (1/2) Rich.initState)
      [Rich.Op.tick (1/4), Rich.Op.flap]).gameRunning = true := by
    simp only [Rich.runOps, Rich.applyOp]
    rw [Rich.flap_gameRunning]
    rw [show Rich.step (1/4) (Rich.startGame (1/2) Rich.initState)
        = Rich.update (1/4) (Rich.startGame (1/2) Rich.initState) by
      unfold Rich.step
      rw [if_pos (Rich.startGame_gameRunning (1/2) Rich.initState)]]
    rw [Rich.update_gameRunning_far (1/4) _ (by
        rw [show (Rich.startGame (1/2) Rich.initState).obstacleX
            = Rich.canvasWidth from rfl]
        unfold Rich.canvasWidth Rich.obstacleSpeed
        norm_num)
      (Rich.startGame_gameRunning (1/2) Rich.initState)]
    rw [decide_eq_true_eq]
    rw [show (Rich.startGame (1/2) Rich.initState).birdY = 300 from rfl,
      show (Rich.startGame (1/2) Rich.initState).birdVelocity = 0 from rfl]
    unfold Rich.gravity Rich.maxVelocity Rich.birdHeight Rich.canvasHeight
    rw [min_eq_left (by norm_num)]
    norm_num
  have hrunS : (Simple.runOps (Simple.startGame (1/2) Simple.initState)
      [Simple.Op.tick (1/4), Simple.Op.jump]).gameRunning = true := by
    simp only [Simple.runOps, Simple.applyOp]
    rw [Simple.jump_gameRunning]
    rw [show Simple.step (1/4) (Simple.startGame (1/2) Simple.initState)
        = Simple.update (1/4) (Simple.startGame (1/2) Simple.initState) by
      unfold Simple.step
      rw [if_pos (Simple.startGame_gameRunningS (1/2) Simple.initState)]]
    rw [Simple.update_gameRunning_farS (1/4) _ (by
        rw [show (Simple.startGame (1/2) Simple.initState).obstacleX
            = Simple.canvasWidth from rfl]
        unfold Simple.canvasWidth Simple.obstacleSpeed
        norm_num)
      (Simple.startGame_gameRunningS (1/2) Simple.initState)]
    rw [decide_eq_true_eq]
    rw [show (Simple.startGame (1/2) Simple.initState).birdY = 300 from rfl,
      show (Simple.startGame (1/2) Simple.initState).birdVelocity = 0 from rfl]
    unfold Simple.gravity Simple.maxVelocity Simple.birdHeight Simple.canvasHeight
    rw [min_eq_left (by norm_num)]
    norm_num
  have hR := C4_birdY_bounded_while_running.1 Rich.initState (1/2)
    [Rich.Op.tick (1/4), Rich.Op.flap] hrunR
  have hS := C4_birdY_bounded_while_running.2 Simple.initState (1/2)
    [Simple.Op.tick (1/4), Simple.Op.jump] hrunS
  exact ⟨hR.1, hR.2, hS.1⟩

/-- C9: the rotation-enabled variant's per-tick rotation update computes,
in order: target tilt clamped to `±maxRotation`, rotation velocity plus
spring force toward the target, then times friction, then rotation plus
the resulting rotation velocity — and within a full tick nothing else
writes `birdRotation` or `birdRotationVelocity` (the tick's final values
are those `updateBirdRotation` produced from the post-physics state). -/
theorem C9_rotation_spring_friction_integrate :
    ∀ (r : ℚ) (s : Rich.GameState),
      ((Rich.updateBirdRotation s).birdRotationVelocity =
        (s.birdRotationVelocity +
          (max (-Rich.maxRotation)
              (min Rich.maxRotation (s.birdVelocity * Rich.rotationSensitivity))
            - s.birdRotation) * Rich.springConstant) * Rich.rotationFriction) ∧
      ((Rich.updateBirdRotation s).birdRotation =
        s.birdRotation + (Rich.updateBirdRotation s).birdRotationVelocity) ∧
      (((Rich.update r s).1).birdRotation
        = (Rich.updateBirdRotation (Rich.updateBirdPosition s)).birdRotation) ∧
      (((Rich.update r s).1).birdRotationVelocity
        = (Rich.updateBirdRotation (Rich.updateBirdPosition s)).birdRotationVelocity) := by
  intro r s
  refine ⟨rfl, rfl, ?_, ?_⟩
  · rw [Rich.update_eq_preCheck, Rich.checkCollisions_birdRotation]
    simp only [Rich.preCheck, Rich.updateObstaclePosition, Rich.updateObstaclePassed,
      Rich.updateAnimation, Rich.updateAnimationFrame, Rich.resetObstacle]
    split_ifs <;> rfl
  · rw [Rich.update_eq_preCheck, Rich.checkCollisions_birdRotationVelocity]
    simp only [Rich.preCheck, Rich.updateObstaclePosition, Rich.updateObstaclePassed,
      Rich.updateAnimation, Rich.updateAnimationFrame, Rich.resetObstacle]
    split_ifs <;> rfl

/-- C8: in both variants, from the reset start state (`birdY = 300`,
`birdVelocity = 0`) and under any random draws, at most 200 no-input
ticks reach a state where the ground condition
`birdY + birdHeight > canvasHeight` holds and the game has stopped,
having still been running the tick before (the run ends at tick 104). -/
theorem C8_no_flap_hits_ground_within_200 :
    ∀ (r0 : ℚ) (rs : ℕ → ℚ), 0 ≤ r0 → r0 < 1 →
      (∃ n, n ≤ 200 ∧
        (Rich.runNoFlap r0 rs n).birdY + Rich.birdHeight > Rich.canvasHeight ∧
        (Rich.runNoFlap r0 rs n).gameRunning = false ∧
        (Rich.runNoFlap r0 rs (n - 1)).gameRunning = true) ∧
      (∃ n, n ≤ 200 ∧
        (Simple.runNoFlap r0 rs n).birdY + Simple.birdHeight
          > Simple.canvasHeight ∧
        (Simple.runNoFlap r0 rs n).gameRunning = false ∧
        (Simple.runNoFlap r0 rs (n - 1)).gameRunning = true) := by
  intro r0 rs h0 h1
  obtain ⟨hall, hfin, hy⟩ := liteCheck_spec 104 liteStart liteCheck_free_fall
  have hpre : ∀ k, k < 104 → (3200 : ℤ) ≤ (liteStep^[k] liteStart).ox - 80 :=
    fun k hk => (hall k hk).2
  constructor
  · obtain ⟨py, pv, px, pr⟩ := Rich.runNoFlap_proj r0 rs 104 hpre
    refine ⟨104, by norm_num, ?_, ?_, ?_⟩
    · unfold Rich.birdHeight Rich.canvasHeight
      have hq : (22800 : ℚ) < 40 * (Rich.runNoFlap r0 rs 104).birdY := by
        rw [← py]
        exact_mod_cast hy
      linarith
    · rw [← pr]
      exact hfin
    · obtain ⟨_, _, _, pr3⟩ :=
        Rich.runNoFlap_proj r0 rs 103 (fun k hk => hpre k (by omega))
      rw [show (104 - 1 : ℕ) = 103 from rfl, ← pr3]
      exact (hall 103 (by norm_num)).1
  · obtain ⟨py, pv, px, pr⟩ := Simple.runNoFlap_projS r0 rs 104 hpre
    refine ⟨104, by norm_num, ?_, ?_, ?_⟩
    · unfold Simple.birdHeight Simple.canvasHeight
      have hq : (22800 : ℚ) < 40 * (Simple.runNoFlap r0 rs 104).birdY := by
        rw [← py]
        exact_mod_cast hy
      linarith
    · rw [← pr]
      exact hfin
    · obtain ⟨_, _, _, pr3⟩ :=
        Simple.runNoFlap_projS r0 rs 103 (fun k hk => hpre k (by omega))
      rw [show (104 - 1 : ℕ) = 103 from rfl, ← pr3]
      exact (hall 103 (by norm_num)).1

/-- Witness for C8 with the first draw `1/2` and all tick draws `0`. -/
theorem C8_witness :
    (∃ n, n ≤ 200 ∧
      (Rich.runNoFlap (1/2) (fun _ => 0) n).birdY + Rich.birdHeight
        > Rich.canvasHeight ∧
      (Rich.runNoFlap (1/2) (fun _ => 0) n).gameRunning = false ∧
      (Rich.runNoFlap (1/2) (fun _ => 0) (n - 1)).gameRunning = true) ∧
    (∃ n, n ≤ 200 ∧
      (Simple.runNoFlap (1/2) (fun _ => 0) n).birdY + Simple.birdHeight
        > Simple.canvasHeight ∧
      (Simple.runNoFlap (1/2) (fun _ => 0) n).gameRunning = false ∧
      (Simple.runNoFlap (1/2) (fun _ => 0) (n - 1)).gameRunning = true) :=
  C8_no_flap_hits_ground_within_200 (1/2) (fun _ => 0) (by norm_num) (by norm_num)

end FlappyTest
